import Mathlib

/-
  Verification development for the go-l2tp L2TP control-plane library
  (katalix/go-l2tp-debian).

  The development shallowly embeds the TOML configuration loader
  (package config) and the tunnel/session context registry
  (package l2tp) as executable Lean definitions, and proves
  properties of the registry operations, ID allocation, the event
  handler list, the call-serial counter and the configuration
  loader against those definitions.
-/

set_option autoImplicit false

namespace gol2tp

/-! ## Protocol constants

`ProtocolVersion2`/`ProtocolVersion3` take the values 2 and 3 as in the
nll2tp package.  The numeric values of the encapsulation, pseudowire and
L2-spec enum constants are defined in a source file not present here;
only their distinctness is observable in what follows. -/

def ProtocolVersion2 : Nat := 2

def ProtocolVersion3 : Nat := 3

def EncapTypeUDP : Nat := 1

def EncapTypeIP : Nat := 2

def PseudowireTypePPP : Nat := 7

def PseudowireTypeEth : Nat := 5

def L2SpecTypeNone : Nat := 0

def L2SpecTypeDefault : Nat := 1

/-! ## TOML value model

go-toml's `Tree.ToMap` yields Go `interface{}` values: numbers are
`int64` or `uint64`, plus bool, string, arrays, nested maps, and other
Go types (floats, dates) which the loader's type assertions reject.
`vOther` stands for any of the latter. -/

inductive TomlVal where
  | vInt (i : Int)
  | vUInt (n : Nat)
  | vBool (b : Bool)
  | vStr (s : String)
  | vArr (elems : List TomlVal)
  | vMap (entries : List (String × TomlVal))
  | vOther

/-- Errors produced by the configuration loader, one constructor per
`fmt.Errorf` site in the source. -/
inductive CfgErr where
  | boolParse
  | uint32Range (b : Int)
  | uint32Type
  | stringParse
  | versionEnum
  | encapEnum
  | pwEnum
  | l2specEnum
  | byteRange (b : Int)
  | byteType
  | bytesNotArray
  | unrecognisedParameter (k : String)
  | failedToProcess (k : String) (e : CfgErr)
  | sessionsNotNamed
  | sessionNotMap (name : String)
  | sessionErr (name : String) (e : CfgErr)
  | tunnelsNotNamed
  | tunnelNotMap (name : String)
  | tunnelErr (name : String) (e : CfgErr)
  | noTunnelTable
  | failedToParseTunnels (e : CfgErr)
  | failedToLoadFile (ioErr : String)
  | failedToLoadString (parseErr : String)

/-! ## Conversion helpers (config.go) -/

def toBool : TomlVal → Except CfgErr Bool
  | .vBool b => .ok b
  | _ => .error .boolParse

def toUint32 : TomlVal → Except CfgErr Nat
  | .vInt b =>
      if b < 0 ∨ b > 4294967295 then .error (.uint32Range b) else .ok b.toNat
  | .vUInt b =>
      if b > 4294967295 then .error (.uint32Range (Int.ofNat b)) else .ok b
  | _ => .error .uint32Type

def toString : TomlVal → Except CfgErr String
  | .vStr s => .ok s
  | _ => .error .stringParse

/-- Milliseconds to a `time.Duration` (nanoseconds). -/
def toDurationMs (v : TomlVal) : Except CfgErr Nat :=
  match toUint32 v with
  | .ok u => .ok (u * 1000000)
  | .error e => .error e

def toVersion (v : TomlVal) : Except CfgErr Nat :=
  match toString v with
  | .ok s =>
      if s = "l2tpv2" then .ok ProtocolVersion2
      else if s = "l2tpv3" then .ok ProtocolVersion3
      else .error .versionEnum
  | .error e => .error e

def toEncapType (v : TomlVal) : Except CfgErr Nat :=
  match toString v with
  | .ok s =>
      if s = "udp" then .ok EncapTypeUDP
      else if s = "ip" then .ok EncapTypeIP
      else .error .encapEnum
  | .error e => .error e

def toPseudowireType (v : TomlVal) : Except CfgErr Nat :=
  match toString v with
  | .ok s =>
      if s = "ppp" then .ok PseudowireTypePPP
      else if s = "eth" then .ok PseudowireTypeEth
      else .error .pwEnum
  | .error e => .error e

def toL2SpecType (v : TomlVal) : Except CfgErr Nat :=
  match toString v with
  | .ok s =>
      if s = "none" then .ok L2SpecTypeNone
      else if s = "default" then .ok L2SpecTypeDefault
      else .error .l2specEnum
  | .error e => .error e

def toCCID (v : TomlVal) : Except CfgErr Nat :=
  toUint32 v

/-- Element-wise byte range check of `toBytes`, in source order:
the first element outside 0..0xff (or of non-integer type) aborts. -/
def toBytesLoop : List TomlVal → Except CfgErr (List Nat)
  | [] => .ok []
  | number :: rest =>
      match number with
      | .vInt b =>
          if b < 0 ∨ b > 255 then .error (.byteRange b)
          else
            match toBytesLoop rest with
            | .ok out => .ok (b.toNat :: out)
            | .error e => .error e
      | .vUInt b =>
          if b > 255 then .error (.byteRange (Int.ofNat b))
          else
            match toBytesLoop rest with
            | .ok out => .ok (b :: out)
            | .error e => .error e
      | _ => .error .byteType

def toBytes : TomlVal → Except CfgErr (List Nat)
  | .vArr numbers => toBytesLoop numbers
  | _ => .error .bytesNotArray

/-! ## Session and tunnel configuration structures -/

structure SessionConfig where
  SessionID : Nat
  PeerSessionID : Nat
  Pseudowire : Nat
  SeqNum : Bool
  ReorderTimeout : Nat
  Cookie : List Nat
  PeerCookie : List Nat
  InterfaceName : String
  L2SpecType : Nat
deriving DecidableEq, Repr

/-- The Go zero value of `SessionConfig`. -/
def defaultSessionConfig : SessionConfig :=
  { SessionID := 0, PeerSessionID := 0, Pseudowire := 0, SeqNum := false,
    ReorderTimeout := 0, Cookie := [], PeerCookie := [], InterfaceName := "",
    L2SpecType := 0 }

/-- TunnelConfig with the fields of the config package plus `HostName`
and `StopCCNTimeout`, which the context code reads and defaults.
(The full struct declaration lives in a source file not present here;
those two fields are modelled from the spec: host name auto-filled from
the OS hostname if empty; StopCCN retransmit timeout defaulted to 31 s.) -/
structure TunnelConfig where
  Local : String
  Peer : String
  Encap : Nat
  Version : Nat
  TunnelID : Nat
  PeerTunnelID : Nat
  HostName : String
  StopCCNTimeout : Nat
  Sessions : List (String × SessionConfig)
deriving DecidableEq, Repr

/-- The zero value of `TunnelConfig` (with the empty sessions map made
by `newTunnelConfig`). -/
def defaultTunnelConfig : TunnelConfig :=
  { Local := "", Peer := "", Encap := 0, Version := 0, TunnelID := 0,
    PeerTunnelID := 0, HostName := "", StopCCNTimeout := 0, Sessions := [] }

/-- Go map assignment `m[k] = v` on an association list. -/
def mapSet {κ α : Type} [BEq κ] (m : List (κ × α)) (k : κ) (v : α) :
    List (κ × α) :=
  m.filter (fun p => !(p.1 == k)) ++ [(k, v)]

/-- Go map lookup `m[k]` on an association list. -/
def tomlLookup (k : String) (m : List (String × TomlVal)) : Option TomlVal :=
  (m.find? (fun p => p.1 == k)).map (fun p => p.2)

/-- Wraps a failed conversion as the `failed to process k: err` error. -/
def wrapKey {α : Type} (k : String) : Except CfgErr α → Except CfgErr α
  | .ok a => .ok a
  | .error e => .error (.failedToProcess k e)

/-! ## newSessionConfig -/

/-- One iteration of the `newSessionConfig` switch. -/
def processSessionKey (sc : SessionConfig) (k : String) (v : TomlVal) :
    Except CfgErr SessionConfig :=
  if k = "sid" then
    wrapKey k ((toCCID v).map (fun u => { sc with SessionID := u }))
  else if k = "psid" then
    wrapKey k ((toCCID v).map (fun u => { sc with PeerSessionID := u }))
  else if k = "pseudowire" then
    wrapKey k ((toPseudowireType v).map (fun u => { sc with Pseudowire := u }))
  else if k = "seqnum" then
    wrapKey k ((toBool v).map (fun b => { sc with SeqNum := b }))
  else if k = "reorder_timeout" then
    wrapKey k ((toDurationMs v).map (fun u => { sc with ReorderTimeout := u }))
  else if k = "cookie" then
    wrapKey k ((toBytes v).map (fun bs => { sc with Cookie := bs }))
  else if k = "peer_cookie" then
    wrapKey k ((toBytes v).map (fun bs => { sc with PeerCookie := bs }))
  else if k = "interface_name" then
    wrapKey k ((toString v).map (fun s => { sc with InterfaceName := s }))
  else if k = "l2spec_type" then
    wrapKey k ((toL2SpecType v).map (fun u => { sc with L2SpecType := u }))
  else
    .error (.unrecognisedParameter k)

def newSessionConfigLoop (sc : SessionConfig) :
    List (String × TomlVal) → Except CfgErr SessionConfig
  | [] => .ok sc
  | (k, v) :: rest =>
      match processSessionKey sc k v with
      | .ok sc2 => newSessionConfigLoop sc2 rest
      | .error e => .error e

def newSessionConfig (scfg : List (String × TomlVal)) :
    Except CfgErr SessionConfig :=
  newSessionConfigLoop defaultSessionConfig scfg

/-! ## newTunnelConfig -/

def loadSessionsLoop (tc : TunnelConfig) :
    List (String × TomlVal) → Except CfgErr TunnelConfig
  | [] => .ok tc
  | (name, got) :: rest =>
      match got with
      | .vMap smap =>
          match newSessionConfig smap with
          | .ok scfg =>
              loadSessionsLoop { tc with Sessions := mapSet tc.Sessions name scfg } rest
          | .error e => .error (.sessionErr name e)
      | _ => .error (.sessionNotMap name)

def loadSessions (tc : TunnelConfig) (v : TomlVal) : Except CfgErr TunnelConfig :=
  match v with
  | .vMap sessions => loadSessionsLoop tc sessions
  | _ => .error .sessionsNotNamed

/-- One iteration of the `newTunnelConfig` switch. -/
def processTunnelKey (tc : TunnelConfig) (k : String) (v : TomlVal) :
    Except CfgErr TunnelConfig :=
  if k = "local" then
    wrapKey k ((toString v).map (fun s => { tc with Local := s }))
  else if k = "peer" then
    wrapKey k ((toString v).map (fun s => { tc with Peer := s }))
  else if k = "encap" then
    wrapKey k ((toEncapType v).map (fun u => { tc with Encap := u }))
  else if k = "version" then
    wrapKey k ((toVersion v).map (fun u => { tc with Version := u }))
  else if k = "tid" then
    wrapKey k ((toCCID v).map (fun u => { tc with TunnelID := u }))
  else if k = "ptid" then
    wrapKey k ((toCCID v).map (fun u => { tc with PeerTunnelID := u }))
  else if k = "session" then
    wrapKey k (loadSessions tc v)
  else
    .error (.unrecognisedParameter k)

def newTunnelConfigLoop (tc : TunnelConfig) :
    List (String × TomlVal) → Except CfgErr TunnelConfig
  | [] => .ok tc
  | (k, v) :: rest =>
      match processTunnelKey tc k v with
      | .ok tc2 => newTunnelConfigLoop tc2 rest
      | .error e => .error e

def newTunnelConfig (tcfg : List (String × TomlVal)) :
    Except CfgErr TunnelConfig :=
  newTunnelConfigLoop defaultTunnelConfig tcfg

/-! ## loadTunnels / newConfig / LoadFile / LoadString -/

structure Config where
  cm : List (String × TomlVal)
  tunnels : List (String × TunnelConfig)

def loadTunnelsLoop (acc : List (String × TunnelConfig)) :
    List (String × TomlVal) → Except CfgErr (List (String × TunnelConfig))
  | [] => .ok acc
  | (name, got) :: rest =>
      match got with
      | .vMap tmap =>
          match newTunnelConfig tmap with
          | .ok tcfg => loadTunnelsLoop (mapSet acc name tcfg) rest
          | .error e => .error (.tunnelErr name e)
      | _ => .error (.tunnelNotMap name)

def loadTunnels (cm : List (String × TomlVal)) :
    Except CfgErr (List (String × TunnelConfig)) :=
  match tomlLookup "tunnel" cm with
  | some got =>
      match got with
      | .vMap tunnels => loadTunnelsLoop [] tunnels
      | _ => .error .tunnelsNotNamed
  | none => .error .noTunnelTable

def newConfig (cm : List (String × TomlVal)) : Except CfgErr Config :=
  match loadTunnels cm with
  | .ok ts => .ok { cm := cm, tunnels := ts }
  | .error e => .error (.failedToParseTunnels e)

/-- LoadFile: the TOML file parse is external I/O, passed as its result
(either the parsed top-level tree or the parse failure message). -/
def LoadFile (parsed : Except String (List (String × TomlVal))) :
    Except CfgErr Config :=
  match parsed with
  | .error e => .error (.failedToLoadFile e)
  | .ok tree => newConfig tree

/-- LoadString: the TOML string parse is external, passed as its result. -/
def LoadString (parsed : Except String (List (String × TomlVal))) :
    Except CfgErr Config :=
  match parsed with
  | .error e => .error (.failedToLoadString e)
  | .ok tree => newConfig tree

/-! ## The l2tp context registry (l2tp.go)

Event handlers are compared with Go interface equality; they are
modelled by their identity, a `Nat`.  Goroutine-external effects
(OS hostname lookup, address resolution, tunnel goroutine startup,
the PRNG) are passed in as an `Env` of oracles. -/

/-- A linked tunnel as the registry sees it: its name and the
(private copy of the) configuration it was built with. -/
structure Tunl where
  name : String
  cfg : TunnelConfig
deriving DecidableEq, Repr

structure Context where
  tunnelsByName : List (String × Tunl)
  tunnelsByID : List (Nat × Tunl)
  callSerial : Nat
  eventHandlers : List Nat
deriving DecidableEq, Repr

/-- External collaborators of the tunnel factories. -/
structure Env where
  hostname : Except String String
  udpAddrPair : Except String Unit
  ipAddrPair : Except String Unit
  mkTunnel : Except String Unit
  randStream : Nat → Nat

def findTunnelByName (ctx : Context) (name : String) : Option Tunl :=
  (ctx.tunnelsByName.find? (fun p => p.1 == name)).map (fun p => p.2)

def findTunnelByID (ctx : Context) (tid : Nat) : Option Tunl :=
  (ctx.tunnelsByID.find? (fun p => p.1 == tid)).map (fun p => p.2)

def linkTunnel (ctx : Context) (t : Tunl) : Context :=
  { ctx with
      tunnelsByName := mapSet ctx.tunnelsByName t.name t,
      tunnelsByID := mapSet ctx.tunnelsByID t.cfg.TunnelID t }

/-! ### Event handlers -/

def RegisterEventHandler (ctx : Context) (h : Nat) : Context :=
  { ctx with eventHandlers := ctx.eventHandlers ++ [h] }

/-- Mirrors the source exactly: on the first matching handler it does
`eventHandlers = append(eventHandlers[:], eventHandlers[i+1:]...)`
and breaks; the value of that Go expression is the whole original
slice followed by the elements after index `i`. -/
def UnregisterEventHandler (ctx : Context) (h : Nat) : Context :=
  match ctx.eventHandlers.findIdx? (fun x => x == h) with
  | some i =>
      { ctx with eventHandlers := ctx.eventHandlers ++ ctx.eventHandlers.drop (i + 1) }
  | none => ctx

/-- The sequence of handlers `handleUserEvent` invokes for one event,
in invocation order. -/
def handleUserEvent (ctx : Context) : List Nat :=
  ctx.eventHandlers

/-! ### Call serial allocation -/

/-- Increments the 32-bit serial counter and returns its new value. -/
def allocCallSerial (ctx : Context) : Context × Nat :=
  ({ ctx with callSerial := (ctx.callSerial + 1) % 4294967296 },
   (ctx.callSerial + 1) % 4294967296)

/-- The context state after `k` calls of `allocCallSerial`. -/
def serialStateAfter (ctx : Context) : Nat → Context
  | 0 => ctx
  | Nat.succ k => (allocCallSerial (serialStateAfter ctx k)).1

/-- The value returned by the `k`-th call (1-based) of `allocCallSerial`. -/
def nthSerial (ctx : Context) (k : Nat) : Nat :=
  (allocCallSerial (serialStateAfter ctx k)).2

/-! ### ID allocation -/

/-- A `rand.Uint32()` draw: the i-th value of the entropy stream,
truncated to 32 bits. -/
def randUint32 (f : Nat → Nat) (i : Nat) : Nat :=
  f i % 4294967296

def generateControlConnID (version : Nat) (r : Nat) : Except String Nat :=
  if version = ProtocolVersion2 then .ok (r % 65536)
  else if version = ProtocolVersion3 then .ok r
  else .error "unhandled version"

/-- The common retry loop of `allocTid` and `allocSid`: up to `fuel`
candidates starting at draw index `i`, rejecting any candidate for
which `present` holds. -/
def allocIDLoop (present : Nat → Bool) (gen : Nat → Except String Nat)
    (wrap : String → String) (i fuel : Nat) : Except String Nat :=
  match fuel with
  | 0 => .error "ID space exhausted"
  | Nat.succ fuel2 =>
      match gen i with
      | .error e => .error (wrap e)
      | .ok id => if present id then allocIDLoop present gen wrap (i + 1) fuel2 else .ok id

def allocTid (ctx : Context) (version : Nat) (f : Nat → Nat) : Except String Nat :=
  allocIDLoop (fun id => (findTunnelByID ctx id).isSome)
    (fun i => generateControlConnID version (randUint32 f i))
    (fun e => "failed to generate tunnel ID: " ++ e) 0 10

/-- A session inside a tunnel, as `baseTunnel` sees it. -/
structure Sess where
  name : String
  cfg : SessionConfig
deriving DecidableEq, Repr

structure BaseTunnel where
  name : String
  cfg : TunnelConfig
  sessionsByName : List (String × Sess)
  sessionsByID : List (Nat × Sess)
deriving DecidableEq, Repr

def findSessionByID (bt : BaseTunnel) (id : Nat) : Option Sess :=
  (bt.sessionsByID.find? (fun p => p.1 == id)).map (fun p => p.2)

def allocSid (bt : BaseTunnel) (f : Nat → Nat) : Except String Nat :=
  allocIDLoop (fun id => (findSessionByID bt id).isSome)
    (fun i => generateControlConnID bt.cfg.Version (randUint32 f i))
    (fun e => "failed to generate session ID: " ++ e) 0 10

/-! ### Context.Close -/

/-- Observable calls `Context.Close` makes, in order. -/
inductive Action where
  | closeTunnel (t : Tunl)
  | closeDP
deriving DecidableEq, Repr

/-- Context.Close: snapshot the tunnels from the by-name map, empty the
by-name map and delete each snapshotted tunnel's configured ID from the
by-ID map, then close each tunnel, then close the data plane. -/
def closeContext (ctx : Context) : Context × List Action :=
  ({ ctx with
      tunnelsByName := [],
      tunnelsByID := ctx.tunnelsByID.filter
        (fun p =>
          !((ctx.tunnelsByName.map (fun q => q.2)).any (fun t => t.cfg.TunnelID == p.1))) },
   (ctx.tunnelsByName.map (fun q => q.2)).map Action.closeTunnel ++ [Action.closeDP])

/-! ### Tunnel factories -/

/-- Result of a tunnel factory call: the returned value, the registry
afterwards, and the caller's `cfg` struct after return (the source
works on `myCfg := *cfg`, a value copy, and writes only to that copy,
so the caller's struct is handed back as passed in). -/
structure TunnelResult where
  res : Except String Tunl
  ctx : Context
  callerCfg : Option TunnelConfig

/-- Sanity checks of `NewDynamicTunnel`, applied to the internal copy
after the host-name and StopCCN-timeout defaults, in source order. -/
def dynamicChecks (myCfg : TunnelConfig) : Option String :=
  if myCfg.Version ≠ ProtocolVersion3 ∧ myCfg.Encap = EncapTypeIP then
    some "IP encapsulation only supported for L2TPv3 tunnels"
  else if myCfg.Version = ProtocolVersion2 ∧ myCfg.TunnelID > 65535 then
    some "L2TPv2 connection ID out of range"
  else if myCfg.PeerTunnelID ≠ 0 then
    some "L2TPv2 peer connection ID cannot be specified for dynamic tunnels"
  else if myCfg.Peer = "" then
    some "must specify peer address for dynamic tunnel"
  else none

/-- Address structure initialisation: which oracle is consulted depends
on the encapsulation, with the source's default-case error. -/
def initAddrPair (env : Env) (myCfg : TunnelConfig) : Except String Unit :=
  if myCfg.Encap = EncapTypeUDP then env.udpAddrPair
  else if myCfg.Encap = EncapTypeIP then env.ipAddrPair
  else .error "unrecognised encapsulation type"

/-- Host-name defaulting step of `NewDynamicTunnel`: fill `HostName`
from the OS hostname when empty. -/
def hostnameStep (env : Env) (cfg0 : TunnelConfig) : Except String TunnelConfig :=
  if cfg0.HostName = "" then
    match env.hostname with
    | .ok h => .ok { cfg0 with HostName := h }
    | .error e => .error ("failed to look up host name: " ++ e)
  else .ok cfg0

/-- StopCCN-timeout defaulting step of `NewDynamicTunnel`: default the
retransmit timeout to 31 s (RFC2661 section 5.7) when unset. -/
def stopCCNStep (c : TunnelConfig) : TunnelConfig :=
  if c.StopCCNTimeout = 0 then { c with StopCCNTimeout := 31000000000 } else c

/-- Tunnel-ID step of `NewDynamicTunnel`: a set ID is checked for
collisions, an unset ID is allocated. -/
def tidStep (ctx : Context) (env : Env) (c : TunnelConfig) : Except String TunnelConfig :=
  if c.TunnelID ≠ 0 then
    if (findTunnelByID ctx c.TunnelID).isSome then
      .error "already have tunnel with TID"
    else .ok c
  else
    match allocTid ctx c.Version env.randStream with
    | .ok tid => .ok { c with TunnelID := tid }
    | .error e => .error ("failed to allocate a TID: " ++ e)

/-- Body of `NewDynamicTunnel` for a non-nil config. -/
def newDynamicTunnelSome (ctx : Context) (name : String) (cfg0 : TunnelConfig)
    (env : Env) : TunnelResult :=
  if (findTunnelByName ctx name).isSome then
    { res := .error ("already have tunnel " ++ name), ctx := ctx, callerCfg := some cfg0 }
  else
    match hostnameStep env cfg0 with
    | .error e => { res := .error e, ctx := ctx, callerCfg := some cfg0 }
    | .ok myCfg1 =>
        match dynamicChecks (stopCCNStep myCfg1) with
        | some e => { res := .error e, ctx := ctx, callerCfg := some cfg0 }
        | none =>
            match tidStep ctx env (stopCCNStep myCfg1) with
            | .error e => { res := .error e, ctx := ctx, callerCfg := some cfg0 }
            | .ok myCfg3 =>
                match initAddrPair env myCfg3 with
                | .error e =>
                    { res := .error ("failed to initialise tunnel addresses: " ++ e),
                      ctx := ctx, callerCfg := some cfg0 }
                | .ok _ =>
                    match env.mkTunnel with
                    | .error e => { res := .error e, ctx := ctx, callerCfg := some cfg0 }
                    | .ok _ =>
                        { res := .ok { name := name, cfg := myCfg3 },
                          ctx := linkTunnel ctx { name := name, cfg := myCfg3 },
                          callerCfg := some cfg0 }

def NewDynamicTunnel (ctx : Context) (name : String) (cfg : Option TunnelConfig)
    (env : Env) : TunnelResult :=
  match cfg with
  | none => { res := .error "invalid nil config", ctx := ctx, callerCfg := none }
  | some cfg0 => newDynamicTunnelSome ctx name cfg0 env

/-- Sanity checks of `NewQuiescentTunnel` in source order (the nested
version-specific checks flattened into one guard chain). -/
def quiescentChecks (ctx : Context) (myCfg : TunnelConfig) : Option String :=
  if myCfg.Version ≠ ProtocolVersion3 ∧ myCfg.Encap = EncapTypeIP then
    some "IP encapsulation only supported for L2TPv3 tunnels"
  else if myCfg.Version = ProtocolVersion2 ∧
      (myCfg.TunnelID = 0 ∨ myCfg.TunnelID > 65535) then
    some "L2TPv2 connection ID out of range"
  else if myCfg.Version = ProtocolVersion2 ∧
      (myCfg.PeerTunnelID = 0 ∨ myCfg.PeerTunnelID > 65535) then
    some "L2TPv2 peer connection ID out of range"
  else if myCfg.Version ≠ ProtocolVersion2 ∧
      (myCfg.TunnelID = 0 ∨ myCfg.PeerTunnelID = 0) then
    some "L2TPv3 tunnel IDs must both be > 0"
  else if myCfg.Local = "" then
    some "must specify local address for quiescent tunnel"
  else if myCfg.Peer = "" then
    some "must specify peer address for quiescent tunnel"
  else if (findTunnelByID ctx myCfg.TunnelID).isSome then
    some "already have tunnel with TID"
  else none

/-- Body of `NewQuiescentTunnel` for a non-nil config. -/
def newQuiescentTunnelSome (ctx : Context) (name : String) (cfg0 : TunnelConfig)
    (env : Env) : TunnelResult :=
  if (findTunnelByName ctx name).isSome then
    { res := .error ("already have tunnel " ++ name), ctx := ctx, callerCfg := some cfg0 }
  else
    match quiescentChecks ctx cfg0 with
    | some e => { res := .error e, ctx := ctx, callerCfg := some cfg0 }
    | none =>
        match initAddrPair env cfg0 with
        | .error e =>
            { res := .error ("failed to initialise tunnel addresses: " ++ e),
              ctx := ctx, callerCfg := some cfg0 }
        | .ok _ =>
            match env.mkTunnel with
            | .error e => { res := .error e, ctx := ctx, callerCfg := some cfg0 }
            | .ok _ =>
                { res := .ok { name := name, cfg := cfg0 },
                  ctx := linkTunnel ctx { name := name, cfg := cfg0 },
                  callerCfg := some cfg0 }

def NewQuiescentTunnel (ctx : Context) (name : String) (cfg : Option TunnelConfig)
    (env : Env) : TunnelResult :=
  match cfg with
  | none => { res := .error "invalid nil config", ctx := ctx, callerCfg := none }
  | some cfg0 => newQuiescentTunnelSome ctx name cfg0 env

/-- Sanity checks of `NewStaticTunnel` in source order. -/
def staticChecks (ctx : Context) (myCfg : TunnelConfig) : Option String :=
  if myCfg.Version ≠ ProtocolVersion3 then
    some "static tunnels can be L2TPv3 only"
  else if myCfg.TunnelID = 0 ∨ myCfg.PeerTunnelID = 0 then
    some "L2TPv3 tunnel IDs must both be > 0"
  else if myCfg.Local = "" then
    some "must specify local address for static tunnel"
  else if myCfg.Peer = "" then
    some "must specify peer address for static tunnel"
  else if (findTunnelByID ctx myCfg.TunnelID).isSome then
    some "already have tunnel with TID"
  else none

/-- Body of `NewStaticTunnel` for a non-nil config. -/
def newStaticTunnelSome (ctx : Context) (name : String) (cfg0 : TunnelConfig)
    (env : Env) : TunnelResult :=
  if (findTunnelByName ctx name).isSome then
    { res := .error ("already have tunnel " ++ name), ctx := ctx, callerCfg := some cfg0 }
  else
    match staticChecks ctx cfg0 with
    | some e => { res := .error e, ctx := ctx, callerCfg := some cfg0 }
    | none =>
        match initAddrPair env cfg0 with
        | .error e =>
            { res := .error ("failed to initialise tunnel addresses: " ++ e),
              ctx := ctx, callerCfg := some cfg0 }
        | .ok _ =>
            match env.mkTunnel with
            | .error e => { res := .error e, ctx := ctx, callerCfg := some cfg0 }
            | .ok _ =>
                { res := .ok { name := name, cfg := cfg0 },
                  ctx := linkTunnel ctx { name := name, cfg := cfg0 },
                  callerCfg := some cfg0 }

def NewStaticTunnel (ctx : Context) (name : String) (cfg : Option TunnelConfig)
    (env : Env) : TunnelResult :=
  match cfg with
  | none => { res := .error "invalid nil config", ctx := ctx, callerCfg := none }
  | some cfg0 => newStaticTunnelSome ctx name cfg0 env

/-! ## Derived notions used in theorem statements -/

/-- The i-th ID candidate the allocation loop draws: the low 16 bits of
the i-th `rand.Uint32()` draw for v2, the full 32 bits for v3. -/
def candID (version : Nat) (f : Nat → Nat) (i : Nat) : Nat :=
  if version = ProtocolVersion2 then randUint32 f i % 65536 else randUint32 f i

/-- Every by-ID registry entry is a by-name entry keyed by its
configured tunnel ID; `linkTunnel` establishes this and all context
operations preserve it. -/
def RegistryConsistent (ctx : Context) : Prop :=
  ∀ p ∈ ctx.tunnelsByID,
    (∃ q ∈ ctx.tunnelsByName, q.2 = p.2) ∧ p.1 = p.2.cfg.TunnelID

/-- The tunnel keys `newTunnelConfig` recognises. -/
def tunnelKeys : List String :=
  ["local", "peer", "encap", "version", "tid", "ptid", "session"]

/-- The session keys `newSessionConfig` recognises. -/
def sessionKeys : List String :=
  ["sid", "psid", "pseudowire", "seqnum", "reorder_timeout",
   "cookie", "peer_cookie", "interface_name", "l2spec_type"]

/-- Cookie well-formedness the loader does enforce: every element of a
cookie byte array fits in a byte. -/
def cookiesBytes (sc : SessionConfig) : Prop :=
  (∀ b ∈ sc.Cookie, b ≤ 255) ∧ (∀ b ∈ sc.PeerCookie, b ≤ 255)

/-! ## Concrete sample data used to instantiate theorems -/

def emptyContext : Context :=
  { tunnelsByName := [], tunnelsByID := [], callSerial := 0, eventHandlers := [] }

def sampleTunnel : Tunl :=
  { name := "a", cfg := { defaultTunnelConfig with TunnelID := 5 } }

def sampleContext : Context :=
  { tunnelsByName := [("a", sampleTunnel)], tunnelsByID := [(5, sampleTunnel)],
    callSerial := 0, eventHandlers := [] }

def sampleBaseTunnel : BaseTunnel :=
  { name := "s", cfg := { defaultTunnelConfig with Version := ProtocolVersion2 },
    sessionsByName := [], sessionsByID := [] }

def sampleEnv : Env :=
  { hostname := .ok "host", udpAddrPair := .ok (), ipAddrPair := .ok (),
    mkTunnel := .ok (), randStream := fun _ => 7 }

def sampleDynCfg : TunnelConfig :=
  { Local := "", Peer := "127.0.0.1:1701", Encap := EncapTypeUDP,
    Version := ProtocolVersion3, TunnelID := 5, PeerTunnelID := 0,
    HostName := "", StopCCNTimeout := 0, Sessions := [] }

/-- The tunnel `NewDynamicTunnel` links for `sampleDynCfg` under
`sampleEnv`: the private copy got the host name and the 31 s StopCCN
default filled in. -/
def sampleDynResult : Tunl :=
  { name := "t1",
    cfg := { sampleDynCfg with HostName := "host", StopCCNTimeout := 31000000000 } }

/-! # Theorems -/

/-! ## Helper lemmas -/

theorem wrapKey_ok {α : Type} (k : String) (e : Except CfgErr α) (y : α)
    (h : wrapKey k e = .ok y) : e = .ok y := by
  cases e with
  | ok a => simpa [wrapKey] using h
  | error e => simp [wrapKey] at h

theorem except_map_ok {α β : Type} (e : Except CfgErr α) (f : α → β) (y : β)
    (h : e.map f = .ok y) : ∃ x, e = .ok x ∧ y = f x := by
  cases e with
  | ok a =>
      refine ⟨a, rfl, ?_⟩
      simpa [Except.map] using h.symm
  | error e => simp [Except.map] at h

theorem toBytesLoop_ok_le :
    ∀ (l : List TomlVal) (bs : List Nat), toBytesLoop l = .ok bs → ∀ b ∈ bs, b ≤ 255 := by
  intro l
  induction l with
  | nil =>
      intro bs h b hb
      unfold toBytesLoop at h
      injection h with h
      subst h
      exact absurd hb (List.not_mem_nil b)
  | cons x rest ih =>
      intro bs h b hb
      cases x with
      | vInt n =>
          simp only [toBytesLoop] at h
          by_cases hr : n < 0 ∨ n > 255
          · rw [if_pos hr] at h
            exact Except.noConfusion h
          · rw [if_neg hr] at h
            cases hrest : toBytesLoop rest with
            | ok out =>
                rw [hrest] at h
                injection h with h
                subst h
                rcases List.mem_cons.mp hb with rfl | hbm
                · omega
                · exact ih out hrest b hbm
            | error e =>
                rw [hrest] at h
                exact Except.noConfusion h
      | vUInt n =>
          simp only [toBytesLoop] at h
          by_cases hr : n > 255
          · rw [if_pos hr] at h
            exact Except.noConfusion h
          · rw [if_neg hr] at h
            cases hrest : toBytesLoop rest with
            | ok out =>
                rw [hrest] at h
                injection h with h
                subst h
                rcases List.mem_cons.mp hb with rfl | hbm
                · omega
                · exact ih out hrest b hbm
            | error e =>
                rw [hrest] at h
                exact Except.noConfusion h
      | vBool b2 => simp [toBytesLoop] at h
      | vStr s => simp [toBytesLoop] at h
      | vArr a => simp [toBytesLoop] at h
      | vMap m => simp [toBytesLoop] at h
      | vOther => simp [toBytesLoop] at h

theorem toBytes_ok_le (v : TomlVal) (bs : List Nat)
    (h : toBytes v = .ok bs) : ∀ b ∈ bs, b ≤ 255 := by
  cases v with
  | vArr elems => exact toBytesLoop_ok_le elems bs h
  | vInt i => exact Except.noConfusion h
  | vUInt n => exact Except.noConfusion h
  | vBool b => exact Except.noConfusion h
  | vStr s => exact Except.noConfusion h
  | vMap m => exact Except.noConfusion h
  | vOther => exact Except.noConfusion h

theorem processSessionKey_cookies (sc sc2 : SessionConfig) (k : String) (v : TomlVal)
    (hc : cookiesBytes sc) (h : processSessionKey sc k v = .ok sc2) :
    cookiesBytes sc2 := by
  unfold processSessionKey at h
  split_ifs at h
  · obtain ⟨u, _, rfl⟩ := except_map_ok _ _ _ (wrapKey_ok _ _ _ h)
    exact hc
  · obtain ⟨u, _, rfl⟩ := except_map_ok _ _ _ (wrapKey_ok _ _ _ h)
    exact hc
  · obtain ⟨u, _, rfl⟩ := except_map_ok _ _ _ (wrapKey_ok _ _ _ h)
    exact hc
  · obtain ⟨u, _, rfl⟩ := except_map_ok _ _ _ (wrapKey_ok _ _ _ h)
    exact hc
  · obtain ⟨u, _, rfl⟩ := except_map_ok _ _ _ (wrapKey_ok _ _ _ h)
    exact hc
  · obtain ⟨bs, hbs, rfl⟩ := except_map_ok _ _ _ (wrapKey_ok _ _ _ h)
    exact ⟨toBytes_ok_le v bs hbs, hc.2⟩
  · obtain ⟨bs, hbs, rfl⟩ := except_map_ok _ _ _ (wrapKey_ok _ _ _ h)
    exact ⟨hc.1, toBytes_ok_le v bs hbs⟩
  · obtain ⟨s, _, rfl⟩ := except_map_ok _ _ _ (wrapKey_ok _ _ _ h)
    exact hc
  · obtain ⟨u, _, rfl⟩ := except_map_ok _ _ _ (wrapKey_ok _ _ _ h)
    exact hc

theorem newSessionConfigLoop_cookies :
    ∀ (l : List (String × TomlVal)) (sc sc2 : SessionConfig),
      cookiesBytes sc → newSessionConfigLoop sc l = .ok sc2 → cookiesBytes sc2 := by
  intro l
  induction l with
  | nil =>
      intro sc sc2 hc h
      unfold newSessionConfigLoop at h
      injection h with h
      subst h
      exact hc
  | cons p rest ih =>
      intro sc sc2 hc h
      obtain ⟨k, v⟩ := p
      unfold newSessionConfigLoop at h
      cases hpk : processSessionKey sc k v with
      | ok scm =>
          rw [hpk] at h
          exact ih scm sc2 (processSessionKey_cookies sc scm k v hc hpk) h
      | error e =>
          rw [hpk] at h
          exact Except.noConfusion h

/-! ## C1 -/

/-- C1: the claim (matching the doc comment of `UnregisterEventHandler`)
says that after RegisterEventHandler(h) then UnregisterEventHandler(h),
h is no longer in the handler list, a subsequent event dispatch does not
invoke h, and every other registered handler is invoked exactly once.
The code violates it: the removal is written
`append(ctx.eventHandlers[:], ctx.eventHandlers[i+1:]...)` — missing the
`[:i]` — which leaves h registered and duplicates the handlers after it.
This theorem evaluates the model at the failing inputs: unregistering the
only handler 1 leaves the dispatch list [1], and with handlers [1, 2],
unregistering 1 makes handler 2 run twice. -/
theorem c1_unregister_event_handler_bug :
    handleUserEvent (UnregisterEventHandler (RegisterEventHandler emptyContext 1) 1) = [1]
    ∧ 1 ∈ handleUserEvent (UnregisterEventHandler (RegisterEventHandler emptyContext 1) 1)
    ∧ (handleUserEvent (UnregisterEventHandler
        (RegisterEventHandler (RegisterEventHandler emptyContext 1) 2) 1)).count 2 = 2 := by
  refine ⟨rfl, ?_, rfl⟩
  simp [handleUserEvent, UnregisterEventHandler, RegisterEventHandler, emptyContext]

/-! ## C7 -/

theorem nthSerial_eq (ctx : Context) :
    ∀ k : Nat, nthSerial ctx k = (ctx.callSerial + k + 1) % 4294967296 := by
  have key : ∀ k : Nat,
      ((serialStateAfter ctx k).callSerial + 1) % 4294967296 =
        (ctx.callSerial + k + 1) % 4294967296 := by
    intro k
    induction k with
    | zero => rfl
    | succ k ih =>
        have hstate : (serialStateAfter ctx (k + 1)).callSerial =
            ((serialStateAfter ctx k).callSerial + 1) % 4294967296 := rfl
        rw [hstate, Nat.mod_add_mod]
        omega
  intro k
  exact key k

/-- C7: each `allocCallSerial` call returns the previous counter value
plus one modulo 2^32 (and stores it), so any two distinct calls among
fewer than 2^32 allocations return distinct serial numbers. -/
theorem c7_call_serial :
    (∀ ctx : Context,
      (allocCallSerial ctx).2 = (ctx.callSerial + 1) % 4294967296 ∧
      (allocCallSerial ctx).1.callSerial = (ctx.callSerial + 1) % 4294967296)
    ∧ (∀ (ctx : Context) (i j : Nat), i < j → j - i < 4294967296 →
        nthSerial ctx i ≠ nthSerial ctx j) := by
  constructor
  · intro ctx
    exact ⟨rfl, rfl⟩
  · intro ctx i j hij hlt h
    rw [nthSerial_eq, nthSerial_eq] at h
    have hmod : Nat.ModEq 4294967296 (i + 1) (j + 1) := by
      have habs : Nat.ModEq 4294967296 (ctx.callSerial + (i + 1)) (ctx.callSerial + (j + 1)) := by
        unfold Nat.ModEq
        omega
      exact (Nat.ModEq.add_left_cancel (Nat.ModEq.refl ctx.callSerial) habs)
    have hdvd : 4294967296 ∣ (j + 1) - (i + 1) :=
      (Nat.modEq_iff_dvd' (by omega)).mp hmod
    have hle : 4294967296 ≤ (j + 1) - (i + 1) :=
      Nat.le_of_dvd (by omega) hdvd
    omega

/-- Instantiation of `c7_call_serial` at a concrete context and call
indices 0 and 1. -/
theorem c7_witness : nthSerial emptyContext 0 ≠ nthSerial emptyContext 1 :=
  c7_call_serial.2 emptyContext 0 1 (by decide) (by decide)

/-! ## C10 -/

/-- C10 (amended): when the top-level tree of a successfully parsed TOML
input has no "tunnel" table, LoadString and LoadFile fail with the
`no tunnel table present` error rather than returning a Config.  (The
final clause of the claim fails: a present but empty tunnel table is
accepted, see the counterexample.) -/
theorem c10_no_tunnel_table :
    ∀ cm : List (String × TomlVal), tomlLookup "tunnel" cm = none →
      newConfig cm = .error (.failedToParseTunnels .noTunnelTable)
      ∧ LoadString (.ok cm) = .error (.failedToParseTunnels .noTunnelTable)
      ∧ LoadFile (.ok cm) = .error (.failedToParseTunnels .noTunnelTable) := by
  intro cm h
  have h1 : newConfig cm = .error (.failedToParseTunnels .noTunnelTable) := by
    unfold newConfig loadTunnels
    rw [h]
  exact ⟨h1, h1, h1⟩

/-- C10 counterexample to the claim as stated: a syntactically valid
input whose tunnel table exists but is empty describes zero tunnels and
is NOT rejected — LoadString returns a Config with an empty tunnel map. -/
theorem c10_counterexample :
    LoadString (.ok [("tunnel", TomlVal.vMap [])]) =
      .ok { cm := [("tunnel", TomlVal.vMap [])], tunnels := [] } := rfl

/-- Instantiation of `c10_no_tunnel_table` at a concrete tree with no
tunnel table. -/
theorem c10_witness :
    newConfig [("ac_name", TomlVal.vStr "x")] =
      .error (.failedToParseTunnels .noTunnelTable) :=
  (c10_no_tunnel_table [("ac_name", TomlVal.vStr "x")] rfl).1

/-! ## C4 -/

/-- C4 counterexample to the claim as stated: a session `cookie` of
length 3 — neither 0, 4 nor 8 bytes — loads successfully, with the
three bytes stored verbatim. -/
theorem c4_counterexample :
    ((newSessionConfig [("cookie", TomlVal.vArr [.vInt 1, .vInt 2, .vInt 3])]).toOption.map
      (fun sc => sc.Cookie) = some [1, 2, 3])
    ∧ ¬(3 = 0 ∨ 3 = 4 ∨ 3 = 8) := by
  exact ⟨rfl, by decide⟩

/-- C4 (amended): the config loader enforces only that `cookie` and
`peer_cookie` are arrays whose every element fits in a byte (0..255);
it does not restrict the length to 0, 4 or 8 bytes — an array of any
length whose elements are bytes loads successfully. -/
theorem c4_cookie_bytes (l : List (String × TomlVal)) (sc : SessionConfig)
    (h : newSessionConfig l = .ok sc) :
    (∀ b ∈ sc.Cookie, b ≤ 255) ∧ (∀ b ∈ sc.PeerCookie, b ≤ 255) :=
  newSessionConfigLoop_cookies l defaultSessionConfig sc
    ⟨fun b hb => absurd hb (List.not_mem_nil b),
     fun b hb => absurd hb (List.not_mem_nil b)⟩ h

/-- Instantiation of `c4_cookie_bytes` at a concrete session config. -/
theorem c4_witness :
    (∀ b ∈ ({ defaultSessionConfig with Cookie := [250] } : SessionConfig).Cookie, b ≤ 255)
    ∧ (∀ b ∈ ({ defaultSessionConfig with Cookie := [250] } : SessionConfig).PeerCookie, b ≤ 255) :=
  c4_cookie_bytes [("cookie", TomlVal.vArr [.vInt 250])] _ rfl

/-! ## C3 -/

theorem allocIDLoop_spec (present : Nat → Bool) (gen : Nat → Except String Nat)
    (wrap : String → String) (g : Nat → Nat) (hgen : ∀ k, gen k = .ok (g k)) :
    ∀ (fuel i : Nat),
      (allocIDLoop present gen wrap i fuel = .error "ID space exhausted" ↔
        ∀ k, i ≤ k → k < i + fuel → present (g k) = true)
      ∧ (∀ j, i ≤ j → j < i + fuel → present (g j) = false →
          (∀ k, i ≤ k → k < j → present (g k) = true) →
          allocIDLoop present gen wrap i fuel = .ok (g j)) := by
  intro fuel
  induction fuel with
  | zero =>
      intro i
      constructor
      · constructor
        · intro _ k hik hk
          omega
        · intro _
          rfl
      · intro j hij hj
        omega
  | succ fuel ih =>
      intro i
      have hloop : allocIDLoop present gen wrap i (fuel + 1) =
          (if present (g i) = true then allocIDLoop present gen wrap (i + 1) fuel
           else .ok (g i)) := by
        conv_lhs => rw [allocIDLoop]
        rw [hgen i]
      by_cases hp : present (g i) = true
      · rw [hloop, if_pos hp]
        constructor
        · rw [(ih (i + 1)).1]
          constructor
          · intro hall k hik hk
            rcases Nat.eq_or_lt_of_le hik with heq | hlt
            · rw [← heq]
              exact hp
            · exact hall k hlt (by omega)
          · intro hall k hik hk
            exact hall k (by omega) (by omega)
        · intro j hij hj hpj hall
          have hij2 : i + 1 ≤ j := by
            rcases Nat.eq_or_lt_of_le hij with heq | hlt
            · rw [← heq] at hpj
              rw [hp] at hpj
              exact absurd hpj (by simp)
            · omega
          exact (ih (i + 1)).2 j hij2 (by omega) hpj (fun k hk1 hk2 => hall k (by omega) hk2)
      · have hp2 : present (g i) = false := by
          revert hp
          cases present (g i) <;> simp
        rw [hloop, if_neg hp]
        constructor
        · constructor
          · intro hcontra
            exact absurd hcontra (by simp)
          · intro hall
            have := hall i (Nat.le_refl i) (by omega)
            rw [hp2] at this
            exact absurd this (by simp)
        · intro j hij hj hpj hall
          have hji : j = i := by
            by_contra hne
            have hlt : i < j := by omega
            have := hall i (Nat.le_refl i) hlt
            rw [hp2] at this
            exact absurd this (by simp)
          rw [hji]

/-- C3: for v2 the allocator draws 16-bit candidates (the low 16 bits of
successive `rand.Uint32()` draws) and for v3 32-bit candidates; a
candidate already present in the registry is rejected and the loop
retries; the result is the error "ID space exhausted" iff all 10
successive candidates collide, and otherwise the first non-colliding
candidate.  Stated for tunnel IDs against the context registry
(`allocTid`) and for session IDs against the tunnel registry
(`allocSid`). -/
theorem c3_alloc_id (ctx : Context) (bt : BaseTunnel) (v : Nat) (f : Nat → Nat)
    (hv : v = ProtocolVersion2 ∨ v = ProtocolVersion3) (hbt : bt.cfg.Version = v) :
    (allocTid ctx v f = .error "ID space exhausted" ↔
      ∀ i, i < 10 → (findTunnelByID ctx (candID v f i)).isSome = true)
    ∧ (∀ j, j < 10 → (findTunnelByID ctx (candID v f j)).isSome = false →
        (∀ i, i < j → (findTunnelByID ctx (candID v f i)).isSome = true) →
        allocTid ctx v f = .ok (candID v f j))
    ∧ (allocSid bt f = .error "ID space exhausted" ↔
        ∀ i, i < 10 → (findSessionByID bt (candID v f i)).isSome = true)
    ∧ (∀ j, j < 10 → (findSessionByID bt (candID v f j)).isSome = false →
        (∀ i, i < j → (findSessionByID bt (candID v f i)).isSome = true) →
        allocSid bt f = .ok (candID v f j)) := by
  have hgen : ∀ k, generateControlConnID v (randUint32 f k) = .ok (candID v f k) := by
    intro k
    rcases hv with h2 | h3
    · rw [h2]
      unfold generateControlConnID candID
      simp [ProtocolVersion2]
    · rw [h3]
      unfold generateControlConnID candID
      simp [ProtocolVersion2, ProtocolVersion3]
  have htid := allocIDLoop_spec (fun id => (findTunnelByID ctx id).isSome)
    (fun i => generateControlConnID v (randUint32 f i))
    (fun e => "failed to generate tunnel ID: " ++ e) (candID v f) hgen 10 0
  have hsid := allocIDLoop_spec (fun id => (findSessionByID bt id).isSome)
    (fun i => generateControlConnID bt.cfg.Version (randUint32 f i))
    (fun e => "failed to generate session ID: " ++ e) (candID v f)
    (by intro k; rw [hbt]; exact hgen k) 10 0
  unfold allocTid allocSid
  refine ⟨?_, ?_, ?_, ?_⟩
  · rw [htid.1]
    constructor
    · intro hall i hi
      exact hall i (Nat.zero_le i) (by omega)
    · intro hall k _ hk
      exact hall k (by omega)
  · intro j hj hfree hall
    exact htid.2 j (Nat.zero_le j) (by omega) hfree (fun k _ hk => hall k hk)
  · rw [hsid.1]
    constructor
    · intro hall i hi
      exact hall i (Nat.zero_le i) (by omega)
    · intro hall k _ hk
      exact hall k (by omega)
  · intro j hj hfree hall
    exact hsid.2 j (Nat.zero_le j) (by omega) hfree (fun k _ hk => hall k hk)

/-- Instantiation of `c3_alloc_id`: in an empty registry, with a stream
always drawing 7, v2 tunnel allocation immediately returns 7. -/
theorem c3_witness :
    allocTid emptyContext ProtocolVersion2 (fun _ => 7) = .ok 7 :=
  (c3_alloc_id emptyContext sampleBaseTunnel ProtocolVersion2 (fun _ => 7)
    (Or.inl rfl) rfl).2.1 0 (by omega) rfl (fun i hi => absurd hi (Nat.not_lt_zero i))

/-! ## C6 -/

/-- C6: on a context whose registry is consistent (every by-ID entry is
a by-name tunnel keyed by its configured tunnel ID, as `linkTunnel`
guarantees), `Context.Close` empties both maps, calls Close on each
removed tunnel, and calls the data plane Close only after every
tunnel Close; afterwards every lookup by name or tunnel ID is absent. -/
theorem c6_context_close (ctx : Context) (hcons : RegistryConsistent ctx) :
    (closeContext ctx).1.tunnelsByName = []
    ∧ (closeContext ctx).1.tunnelsByID = []
    ∧ (closeContext ctx).2 =
        (ctx.tunnelsByName.map (fun p => Action.closeTunnel p.2)) ++ [Action.closeDP]
    ∧ (∀ n, findTunnelByName (closeContext ctx).1 n = none)
    ∧ (∀ i, findTunnelByID (closeContext ctx).1 i = none) := by
  have hID : (closeContext ctx).1.tunnelsByID = [] := by
    unfold closeContext
    refine List.filter_eq_nil_iff.mpr ?_
    intro p hp
    obtain ⟨⟨q, hq, hq2⟩, hid⟩ := hcons p hp
    have hmem : p.2 ∈ ctx.tunnelsByName.map (fun q => q.2) :=
      List.mem_map.mpr ⟨q, hq, hq2⟩
    have hany : (ctx.tunnelsByName.map (fun q => q.2)).any
        (fun t => t.cfg.TunnelID == p.1) = true :=
      List.any_eq_true.mpr ⟨p.2, hmem, beq_iff_eq.mpr hid.symm⟩
    simp [hany]
  refine ⟨rfl, hID, ?_, ?_, ?_⟩
  · unfold closeContext
    simp [List.map_map]
  · intro n
    rfl
  · intro i
    simp [findTunnelByID, hID]

/-- Instantiation of `c6_context_close` at a one-tunnel context. -/
theorem c6_witness :
    (closeContext sampleContext).1.tunnelsByID = []
    ∧ (closeContext sampleContext).2 = [Action.closeTunnel sampleTunnel, Action.closeDP] := by
  have h := c6_context_close sampleContext (by
    intro p hp
    simp only [sampleContext] at hp
    rw [List.mem_singleton] at hp
    subst hp
    exact ⟨⟨("a", sampleTunnel), by simp [sampleContext], rfl⟩, rfl⟩)
  exact ⟨h.2.1, h.2.2.1⟩

/-! ## Lemmas on the NewDynamicTunnel steps -/

theorem hostnameStep_fields (env : Env) (c c1 : TunnelConfig)
    (h : hostnameStep env c = .ok c1) :
    c1.Version = c.Version ∧ c1.Encap = c.Encap ∧ c1.TunnelID = c.TunnelID ∧
    c1.PeerTunnelID = c.PeerTunnelID ∧ c1.Peer = c.Peer ∧ c1.Local = c.Local ∧
    c1.StopCCNTimeout = c.StopCCNTimeout := by
  unfold hostnameStep at h
  split_ifs at h
  · cases henv : env.hostname with
    | ok hn =>
        rw [henv] at h
        injection h with h
        subst h
        exact ⟨rfl, rfl, rfl, rfl, rfl, rfl, rfl⟩
    | error e =>
        rw [henv] at h
        exact Except.noConfusion h
  · injection h with h
    subst h
    exact ⟨rfl, rfl, rfl, rfl, rfl, rfl, rfl⟩

theorem hostnameStep_hostname (env : Env) (c c1 : TunnelConfig)
    (h : hostnameStep env c = .ok c1) (he : c.HostName = "") :
    ∃ hn, env.hostname = .ok hn ∧ c1.HostName = hn := by
  unfold hostnameStep at h
  rw [if_pos he] at h
  cases henv : env.hostname with
  | ok hn =>
      rw [henv] at h
      injection h with h
      subst h
      exact ⟨hn, rfl, rfl⟩
  | error e =>
      rw [henv] at h
      exact Except.noConfusion h

theorem stopCCNStep_fields (c : TunnelConfig) :
    (stopCCNStep c).Version = c.Version ∧ (stopCCNStep c).Encap = c.Encap ∧
    (stopCCNStep c).TunnelID = c.TunnelID ∧ (stopCCNStep c).PeerTunnelID = c.PeerTunnelID ∧
    (stopCCNStep c).Peer = c.Peer ∧ (stopCCNStep c).Local = c.Local ∧
    (stopCCNStep c).HostName = c.HostName := by
  unfold stopCCNStep
  split_ifs <;> exact ⟨rfl, rfl, rfl, rfl, rfl, rfl, rfl⟩

theorem stopCCNStep_default (c : TunnelConfig) (h : c.StopCCNTimeout = 0) :
    (stopCCNStep c).StopCCNTimeout = 31000000000 := by
  unfold stopCCNStep
  rw [if_pos h]

theorem tidStep_fields (ctx : Context) (env : Env) (c c3 : TunnelConfig)
    (h : tidStep ctx env c = .ok c3) :
    c3.HostName = c.HostName ∧ c3.StopCCNTimeout = c.StopCCNTimeout := by
  unfold tidStep at h
  split_ifs at h
  · injection h with h
    subst h
    exact ⟨rfl, rfl⟩
  · cases halloc : allocTid ctx c.Version env.randStream with
    | ok tid =>
        rw [halloc] at h
        injection h with h
        subst h
        exact ⟨rfl, rfl⟩
    | error e =>
        rw [halloc] at h
        exact Except.noConfusion h

theorem dynamicChecks_none (c : TunnelConfig) (h : dynamicChecks c = none) :
    ¬(c.Version = ProtocolVersion2 ∧ c.TunnelID > 65535) ∧ c.PeerTunnelID = 0 := by
  unfold dynamicChecks at h
  split_ifs at h with g1 g2 g3 g4
  exact ⟨g2, by omega⟩

theorem quiescentChecks_none (ctx : Context) (c : TunnelConfig)
    (h : quiescentChecks ctx c = none) :
    ¬c.TunnelID = 0 ∧ ¬c.PeerTunnelID = 0 := by
  unfold quiescentChecks at h
  split_ifs at h with g1 g2 g3 g4 g5 g6 g7
  by_cases hV : c.Version = ProtocolVersion2
  · constructor
    · intro h0
      exact g2 ⟨hV, Or.inl h0⟩
    · intro h0
      exact g3 ⟨hV, Or.inl h0⟩
  · constructor
    · intro h0
      exact g4 ⟨hV, Or.inl h0⟩
    · intro h0
      exact g4 ⟨hV, Or.inr h0⟩

theorem staticChecks_none (ctx : Context) (c : TunnelConfig)
    (h : staticChecks ctx c = none) :
    ¬c.TunnelID = 0 ∧ ¬c.PeerTunnelID = 0 := by
  unfold staticChecks at h
  split_ifs at h with g1 g2 g3 g4 g5
  exact ⟨fun h0 => g2 (Or.inl h0), fun h0 => g2 (Or.inr h0)⟩

theorem NewDynamicTunnel_some (ctx : Context) (name : String) (cfg : TunnelConfig)
    (env : Env) :
    NewDynamicTunnel ctx name (some cfg) env = newDynamicTunnelSome ctx name cfg env := rfl

theorem NewQuiescentTunnel_some (ctx : Context) (name : String) (cfg : TunnelConfig)
    (env : Env) :
    NewQuiescentTunnel ctx name (some cfg) env = newQuiescentTunnelSome ctx name cfg env := rfl

theorem NewStaticTunnel_some (ctx : Context) (name : String) (cfg : TunnelConfig)
    (env : Env) :
    NewStaticTunnel ctx name (some cfg) env = newStaticTunnelSome ctx name cfg env := rfl

/-! ## C2 -/

/-- C2: creating a dynamic tunnel whose config has Version = v2 and
TunnelID > 65535 always fails with an error, and the registry is left
exactly as it was — no tunnel is linked under the name or any ID. -/
theorem c2_v2_tid_out_of_range (ctx : Context) (name : String) (cfg : TunnelConfig)
    (env : Env) (hv : cfg.Version = ProtocolVersion2) (ht : cfg.TunnelID > 65535) :
    (∃ e, (NewDynamicTunnel ctx name (some cfg) env).res = .error e)
    ∧ (NewDynamicTunnel ctx name (some cfg) env).ctx = ctx := by
  rw [NewDynamicTunnel_some]
  unfold newDynamicTunnelSome
  split
  · exact ⟨⟨_, rfl⟩, rfl⟩
  · split
    · exact ⟨⟨_, rfl⟩, rfl⟩
    next myCfg1 heq =>
      have h1 := hostnameStep_fields env cfg myCfg1 heq
      have h2 := stopCCNStep_fields myCfg1
      split
      · exact ⟨⟨_, rfl⟩, rfl⟩
      next heq2 =>
        exfalso
        refine (dynamicChecks_none _ heq2).1 ⟨?_, ?_⟩
        · rw [h2.1, h1.1, hv]
        · rw [h2.2.2.1, h1.2.2.1]
          exact ht

/-- Instantiation of `c2_v2_tid_out_of_range` at TunnelID = 70000. -/
theorem c2_witness :
    (∃ e, (NewDynamicTunnel emptyContext "t1"
      (some { sampleDynCfg with Version := ProtocolVersion2, TunnelID := 70000 })
      sampleEnv).res = .error e)
    ∧ (NewDynamicTunnel emptyContext "t1"
        (some { sampleDynCfg with Version := ProtocolVersion2, TunnelID := 70000 })
        sampleEnv).ctx = emptyContext :=
  c2_v2_tid_out_of_range emptyContext "t1"
    { sampleDynCfg with Version := ProtocolVersion2, TunnelID := 70000 }
    sampleEnv rfl (by decide)

/-! ## C5 -/

/-- C5: NewDynamicTunnel errors whenever the configured peer tunnel ID
is nonzero; NewQuiescentTunnel and NewStaticTunnel error whenever the
local or the peer tunnel ID is zero; in each error case the registry is
unchanged, so no tunnel is created or linked. -/
theorem c5_factory_id_checks (ctx : Context) (name : String) (cfg : TunnelConfig)
    (env : Env) :
    (cfg.PeerTunnelID ≠ 0 →
      (∃ e, (NewDynamicTunnel ctx name (some cfg) env).res = .error e)
      ∧ (NewDynamicTunnel ctx name (some cfg) env).ctx = ctx)
    ∧ (cfg.TunnelID = 0 ∨ cfg.PeerTunnelID = 0 →
      (∃ e, (NewQuiescentTunnel ctx name (some cfg) env).res = .error e)
      ∧ (NewQuiescentTunnel ctx name (some cfg) env).ctx = ctx)
    ∧ (cfg.TunnelID = 0 ∨ cfg.PeerTunnelID = 0 →
      (∃ e, (NewStaticTunnel ctx name (some cfg) env).res = .error e)
      ∧ (NewStaticTunnel ctx name (some cfg) env).ctx = ctx) := by
  refine ⟨?_, ?_, ?_⟩
  · intro hp
    rw [NewDynamicTunnel_some]
    unfold newDynamicTunnelSome
    split
    · exact ⟨⟨_, rfl⟩, rfl⟩
    · split
      · exact ⟨⟨_, rfl⟩, rfl⟩
      next myCfg1 heq =>
        split
        · exact ⟨⟨_, rfl⟩, rfl⟩
        next heq2 =>
          exfalso
          apply hp
          have h1 := hostnameStep_fields env cfg myCfg1 heq
          have h2 := stopCCNStep_fields myCfg1
          rw [← h1.2.2.2.1, ← h2.2.2.2.1]
          exact (dynamicChecks_none _ heq2).2
  · intro hids
    rw [NewQuiescentTunnel_some]
    unfold newQuiescentTunnelSome
    split
    · exact ⟨⟨_, rfl⟩, rfl⟩
    · split
      · exact ⟨⟨_, rfl⟩, rfl⟩
      next heq =>
        exfalso
        rcases hids with h0 | h0
        · exact (quiescentChecks_none ctx cfg heq).1 h0
        · exact (quiescentChecks_none ctx cfg heq).2 h0
  · intro hids
    rw [NewStaticTunnel_some]
    unfold newStaticTunnelSome
    split
    · exact ⟨⟨_, rfl⟩, rfl⟩
    · split
      · exact ⟨⟨_, rfl⟩, rfl⟩
      next heq =>
        exfalso
        rcases hids with h0 | h0
        · exact (staticChecks_none ctx cfg heq).1 h0
        · exact (staticChecks_none ctx cfg heq).2 h0

/-- Instantiation of `c5_factory_id_checks` at concrete configs. -/
theorem c5_witness :
    (∃ e, (NewDynamicTunnel emptyContext "t1"
      (some { sampleDynCfg with PeerTunnelID := 9 }) sampleEnv).res = .error e)
    ∧ (∃ e, (NewStaticTunnel emptyContext "t1"
        (some { sampleDynCfg with TunnelID := 0 }) sampleEnv).res = .error e) :=
  ⟨((c5_factory_id_checks emptyContext "t1" { sampleDynCfg with PeerTunnelID := 9 }
      sampleEnv).1 (by decide)).1,
   ((c5_factory_id_checks emptyContext "t1" { sampleDynCfg with TunnelID := 0 }
      sampleEnv).2.2 (Or.inl rfl)).1⟩

/-! ## C9 -/

/-- C9: every tunnel factory works on a private copy of the caller's
TunnelConfig, so the caller's struct is unchanged on return — even when
the dynamic factory fills in the host name or the 31-second StopCCN
default into its copy (as witnessed by the linked tunnel's config). -/
theorem c9_config_copy (ctx : Context) (name : String) (cfg : TunnelConfig) (env : Env) :
    (NewDynamicTunnel ctx name (some cfg) env).callerCfg = some cfg
    ∧ (NewQuiescentTunnel ctx name (some cfg) env).callerCfg = some cfg
    ∧ (NewStaticTunnel ctx name (some cfg) env).callerCfg = some cfg
    ∧ (∀ t, (NewDynamicTunnel ctx name (some cfg) env).res = .ok t →
        (cfg.StopCCNTimeout = 0 → t.cfg.StopCCNTimeout = 31000000000)
        ∧ (∀ hn, cfg.HostName = "" → env.hostname = .ok hn → t.cfg.HostName = hn)) := by
  refine ⟨?_, ?_, ?_, ?_⟩
  · rw [NewDynamicTunnel_some]
    unfold newDynamicTunnelSome
    repeat' split
    all_goals rfl
  · rw [NewQuiescentTunnel_some]
    unfold newQuiescentTunnelSome
    repeat' split
    all_goals rfl
  · rw [NewStaticTunnel_some]
    unfold newStaticTunnelSome
    repeat' split
    all_goals rfl
  · intro t hres
    rw [NewDynamicTunnel_some] at hres
    unfold newDynamicTunnelSome at hres
    split at hres
    · exact Except.noConfusion hres
    · split at hres
      · exact Except.noConfusion hres
      next myCfg1 heq =>
        split at hres
        · exact Except.noConfusion hres
        · split at hres
          · exact Except.noConfusion hres
          next myCfg3 heq3 =>
            split at hres
            · exact Except.noConfusion hres
            · split at hres
              · exact Except.noConfusion hres
              · injection hres with hres
                subst hres
                have hhf := hostnameStep_fields env cfg myCfg1 heq
                have htf := tidStep_fields ctx env (stopCCNStep myCfg1) myCfg3 heq3
                constructor
                · intro h0
                  rw [htf.2]
                  exact stopCCNStep_default myCfg1 (by rw [hhf.2.2.2.2.2.2]; exact h0)
                · intro hn hhost henv
                  obtain ⟨hn2, henv2, hh⟩ := hostnameStep_hostname env cfg myCfg1 heq hhost
                  rw [henv] at henv2
                  injection henv2 with henv2
                  rw [htf.1, (stopCCNStep_fields myCfg1).2.2.2.2.2.2, hh, henv2]

/-- Instantiation of `c9_config_copy` at a successful dynamic-tunnel
creation that fills in both defaults. -/
theorem c9_witness :
    (NewDynamicTunnel emptyContext "t1" (some sampleDynCfg) sampleEnv).callerCfg
      = some sampleDynCfg
    ∧ sampleDynResult.cfg.StopCCNTimeout = 31000000000
    ∧ sampleDynResult.cfg.HostName = "host" :=
  ⟨(c9_config_copy emptyContext "t1" sampleDynCfg sampleEnv).1,
   ((c9_config_copy emptyContext "t1" sampleDynCfg sampleEnv).2.2.2
      sampleDynResult rfl).1 rfl,
   ((c9_config_copy emptyContext "t1" sampleDynCfg sampleEnv).2.2.2
      sampleDynResult rfl).2 "host" rfl rfl⟩

/-! ## C8 -/

theorem newTunnelConfigLoop_cons (tc : TunnelConfig) (k : String) (v : TomlVal)
    (rest : List (String × TomlVal)) :
    newTunnelConfigLoop tc ((k, v) :: rest) =
      (match processTunnelKey tc k v with
       | .ok tc2 => newTunnelConfigLoop tc2 rest
       | .error e => .error e) := rfl

theorem newSessionConfigLoop_cons (sc : SessionConfig) (k : String) (v : TomlVal)
    (rest : List (String × TomlVal)) :
    newSessionConfigLoop sc ((k, v) :: rest) =
      (match processSessionKey sc k v with
       | .ok sc2 => newSessionConfigLoop sc2 rest
       | .error e => .error e) := rfl

theorem processTunnelKey_unknown (tc : TunnelConfig) (k : String) (v : TomlVal)
    (hk : k ∉ tunnelKeys) :
    processTunnelKey tc k v = .error (.unrecognisedParameter k) := by
  unfold processTunnelKey
  split_ifs with h1 h2 h3 h4 h5 h6 h7
  · exact absurd (by rw [h1]; decide) hk
  · exact absurd (by rw [h2]; decide) hk
  · exact absurd (by rw [h3]; decide) hk
  · exact absurd (by rw [h4]; decide) hk
  · exact absurd (by rw [h5]; decide) hk
  · exact absurd (by rw [h6]; decide) hk
  · exact absurd (by rw [h7]; decide) hk
  · rfl

theorem processSessionKey_unknown (sc : SessionConfig) (k : String) (v : TomlVal)
    (hk : k ∉ sessionKeys) :
    processSessionKey sc k v = .error (.unrecognisedParameter k) := by
  unfold processSessionKey
  split_ifs with h1 h2 h3 h4 h5 h6 h7 h8 h9
  · exact absurd (by rw [h1]; decide) hk
  · exact absurd (by rw [h2]; decide) hk
  · exact absurd (by rw [h3]; decide) hk
  · exact absurd (by rw [h4]; decide) hk
  · exact absurd (by rw [h5]; decide) hk
  · exact absurd (by rw [h6]; decide) hk
  · exact absurd (by rw [h7]; decide) hk
  · exact absurd (by rw [h8]; decide) hk
  · exact absurd (by rw [h9]; decide) hk
  · rfl

theorem newTunnelConfigLoop_unknown_error :
    ∀ (l : List (String × TomlVal)) (tc : TunnelConfig),
      (∃ p ∈ l, p.1 ∉ tunnelKeys) → ∃ e, newTunnelConfigLoop tc l = .error e := by
  intro l
  induction l with
  | nil =>
      intro tc ⟨p, hp, _⟩
      exact absurd hp (List.not_mem_nil p)
  | cons q rest ih =>
      intro tc ⟨p, hp, hk⟩
      obtain ⟨k, v⟩ := q
      rcases List.mem_cons.mp hp with heq | hrest
      · subst heq
        rw [newTunnelConfigLoop_cons, processTunnelKey_unknown tc k v hk]
        exact ⟨_, rfl⟩
      · rw [newTunnelConfigLoop_cons]
        cases hpk : processTunnelKey tc k v with
        | error e => exact ⟨e, rfl⟩
        | ok tc2 => exact ih tc2 ⟨p, hrest, hk⟩

theorem newSessionConfigLoop_unknown_error :
    ∀ (l : List (String × TomlVal)) (sc : SessionConfig),
      (∃ p ∈ l, p.1 ∉ sessionKeys) → ∃ e, newSessionConfigLoop sc l = .error e := by
  intro l
  induction l with
  | nil =>
      intro sc ⟨p, hp, _⟩
      exact absurd hp (List.not_mem_nil p)
  | cons q rest ih =>
      intro sc ⟨p, hp, hk⟩
      obtain ⟨k, v⟩ := q
      rcases List.mem_cons.mp hp with heq | hrest
      · subst heq
        rw [newSessionConfigLoop_cons, processSessionKey_unknown sc k v hk]
        exact ⟨_, rfl⟩
      · rw [newSessionConfigLoop_cons]
        cases hpk : processSessionKey sc k v with
        | error e => exact ⟨e, rfl⟩
        | ok sc2 => exact ih sc2 ⟨p, hrest, hk⟩

theorem newTunnelConfigLoop_unknown_named :
    ∀ (pre : List (String × TomlVal)) (tc : TunnelConfig) (k : String) (v : TomlVal)
      (post : List (String × TomlVal)),
      k ∉ tunnelKeys →
      (∀ p ∈ pre, ∀ tc2 : TunnelConfig, ∃ tc3, processTunnelKey tc2 p.1 p.2 = .ok tc3) →
      newTunnelConfigLoop tc (pre ++ (k, v) :: post) = .error (.unrecognisedParameter k) := by
  intro pre
  induction pre with
  | nil =>
      intro tc k v post hk _
      rw [List.nil_append, newTunnelConfigLoop_cons, processTunnelKey_unknown tc k v hk]
  | cons q rest ih =>
      intro tc k v post hk hpre
      obtain ⟨k0, v0⟩ := q
      obtain ⟨tc2, htc2⟩ := hpre (k0, v0) (List.mem_cons_self _ _) tc
      rw [List.cons_append, newTunnelConfigLoop_cons, htc2]
      exact ih tc2 k v post hk (fun p hp tc3 => hpre p (List.mem_cons_of_mem _ hp) tc3)

theorem newSessionConfigLoop_unknown_named :
    ∀ (pre : List (String × TomlVal)) (sc : SessionConfig) (k : String) (v : TomlVal)
      (post : List (String × TomlVal)),
      k ∉ sessionKeys →
      (∀ p ∈ pre, ∀ sc2 : SessionConfig, ∃ sc3, processSessionKey sc2 p.1 p.2 = .ok sc3) →
      newSessionConfigLoop sc (pre ++ (k, v) :: post) = .error (.unrecognisedParameter k) := by
  intro pre
  induction pre with
  | nil =>
      intro sc k v post hk _
      rw [List.nil_append, newSessionConfigLoop_cons, processSessionKey_unknown sc k v hk]
  | cons q rest ih =>
      intro sc k v post hk hpre
      obtain ⟨k0, v0⟩ := q
      obtain ⟨sc2, hsc2⟩ := hpre (k0, v0) (List.mem_cons_self _ _) sc
      rw [List.cons_append, newSessionConfigLoop_cons, hsc2]
      exact ih sc2 k v post hk (fun p hp sc3 => hpre p (List.mem_cons_of_mem _ hp) sc3)

/-- C8: a tunnel key outside local/peer/encap/version/tid/ptid/session,
or a session key outside sid/psid/pseudowire/seqnum/reorder_timeout/
cookie/peer_cookie/interface_name/l2spec_type, makes loading fail with
no config produced; when the entries processed before the unknown key
all parse, the error is exactly `unrecognised parameter k`, naming the
offending key; and the failure propagates through loadTunnels so that
newConfig returns no Config. -/
theorem c8_unknown_keys :
    (∀ tl : List (String × TomlVal), (∃ p ∈ tl, p.1 ∉ tunnelKeys) →
      ∃ e, newTunnelConfig tl = .error e)
    ∧ (∀ sl : List (String × TomlVal), (∃ p ∈ sl, p.1 ∉ sessionKeys) →
      ∃ e, newSessionConfig sl = .error e)
    ∧ (∀ (pre : List (String × TomlVal)) (k : String) (v : TomlVal)
        (post : List (String × TomlVal)), k ∉ tunnelKeys →
        (∀ p ∈ pre, ∀ tc : TunnelConfig, ∃ tc2, processTunnelKey tc p.1 p.2 = .ok tc2) →
        newTunnelConfig (pre ++ (k, v) :: post) = .error (.unrecognisedParameter k))
    ∧ (∀ (pre : List (String × TomlVal)) (k : String) (v : TomlVal)
        (post : List (String × TomlVal)), k ∉ sessionKeys →
        (∀ p ∈ pre, ∀ sc : SessionConfig, ∃ sc2, processSessionKey sc p.1 p.2 = .ok sc2) →
        newSessionConfig (pre ++ (k, v) :: post) = .error (.unrecognisedParameter k))
    ∧ (∀ (cm : List (String × TomlVal)) (tname : String) (tl : List (String × TomlVal)),
        tomlLookup "tunnel" cm = some (.vMap [(tname, .vMap tl)]) →
        (∃ p ∈ tl, p.1 ∉ tunnelKeys) →
        ∃ e2, newConfig cm = .error e2) := by
  refine ⟨?_, ?_, ?_, ?_, ?_⟩
  · intro tl hex
    exact newTunnelConfigLoop_unknown_error tl defaultTunnelConfig hex
  · intro sl hex
    exact newSessionConfigLoop_unknown_error sl defaultSessionConfig hex
  · intro pre k v post hk hpre
    exact newTunnelConfigLoop_unknown_named pre defaultTunnelConfig k v post hk hpre
  · intro pre k v post hk hpre
    exact newSessionConfigLoop_unknown_named pre defaultSessionConfig k v post hk hpre
  · intro cm tname tl hlk hex
    obtain ⟨e, he⟩ := newTunnelConfigLoop_unknown_error tl defaultTunnelConfig hex
    have htl : newTunnelConfig tl = .error e := he
    unfold newConfig loadTunnels
    rw [hlk]
    simp only [loadTunnelsLoop, htl]
    exact ⟨_, rfl⟩

/-- Instantiation of `c8_unknown_keys` at a tunnel table and a session
table each holding a single unknown key. -/
theorem c8_witness :
    newTunnelConfig [("bogus", TomlVal.vBool true)] =
      .error (.unrecognisedParameter "bogus")
    ∧ newSessionConfig [("pppd_args", TomlVal.vStr "/tmp/a")] =
      .error (.unrecognisedParameter "pppd_args") :=
  ⟨c8_unknown_keys.2.2.1 [] "bogus" (TomlVal.vBool true) [] (by decide)
      (fun p hp _ => absurd hp (List.not_mem_nil p)),
   c8_unknown_keys.2.2.2.1 [] "pppd_args" (TomlVal.vStr "/tmp/a") [] (by decide)
      (fun p hp _ => absurd hp (List.not_mem_nil p))⟩

end gol2tp
